import Mathlib

/-!
A shallow embedding, in Lean 4, of the garava one-way sync engine
(Garmin → Strava), covering the pieces its specification talks about:

* `garava/sync/filters.py`  — `ActivityFilter`
* `garava/models.py`        — `ActivityStatus`, `Activity`, `SyncRun`,
                              `GarminActivity.from_api_response`
* `garava/database.py`      — the `activities` table (with its SQL
                              `UNIQUE` constraint on `garmin_activity_id`),
                              `activity_exists`, `get_activity`,
                              `insert_activity`
* `garava/strava/upload.py` — `upload_fit_file`, `_parse_duplicate_id`
* `garava/strava/gear.py`   — `_matches_rule`, `apply_gear_rules`
* `garava/sync/processor.py`— `process_activity` and its `_record_*` helpers
* `garava/sync/core.py`     — `SyncEngine._process_with_auth_recovery`
                              and `SyncEngine.run_cycle`

External effects (Garmin downloads, Strava network calls, SQLite, wall clock)
are passed in as explicit outcome values; exceptions are modelled with
`Except` / explicit exception constructors; Python strings are Lean
`String`s with ASCII-faithful helpers for `lower` / `strip` /
lexicographic `<` / `in`.
-/

/-! ## Python string helpers -/

/-- Python `\s` (and `str.strip`'s default set) on ASCII:
space, tab, newline, carriage return, vertical tab, form feed. -/
def isPySpace (c : Char) : Bool :=
  c = ' ' || c = '\t' || c = '\n' || c = '\r' || c = Char.ofNat 11 || c = Char.ofNat 12

/-- Python `str.lower`, faithful on ASCII text. -/
def pyLower (s : String) : String :=
  String.mk (s.data.map Char.toLower)

/-- Python `str.strip()` (no argument): drop leading and trailing whitespace. -/
def pyStrip (s : String) : String :=
  String.mk (((s.data.dropWhile isPySpace).reverse.dropWhile isPySpace).reverse)

/-- Python lexicographic `<` on strings, char by char (code-point order). -/
def lexLt : List Char → List Char → Bool
  | [], [] => false
  | [], _ :: _ => true
  | _ :: _, [] => false
  | a :: as, b :: bs =>
    if a < b then true
    else if b < a then false
    else lexLt as bs

/-- Python `a < b` on strings. -/
def pyStrLt (a b : String) : Bool :=
  lexLt a.data b.data

/-- Python `needle in hay` substring test, on char lists. -/
def listContainsSub (hay needle : List Char) : Bool :=
  needle.isPrefixOf hay ||
    match hay with
    | [] => false
    | _ :: t => listContainsSub t needle

/-- Python `needle in hay` on strings. -/
def pyContains (hay needle : String) : Bool :=
  listContainsSub hay.data needle.data

/-- Python `s.replace(" ", "T")` — the date-format normalization used by the
processor ("Garmin uses space, we use T separator"). -/
def normalizeTime (s : String) : String :=
  String.mk (s.data.map fun c => if c = ' ' then 'T' else c)

/-- Truthiness of an optional Python string (`if initial_sync_time:`):
`None` and the empty string are falsy. -/
def pyTruthy : Option String → Bool
  | none => false
  | some s => !s.data.isEmpty

/-! ## `garava/sync/filters.py` — ActivityFilter

The filter is its immutable block-set; we keep the constructor argument
(the raw `blocked_types` list) and normalize exactly as `__init__` does. -/

/-- `ActivityFilter.__init__`: `{t.lower().strip() for t in blocked_types}`.
(A list models the Python set; only membership is ever consulted.) -/
def blockedTypesNormalized (blocked_types : List String) : List String :=
  blocked_types.map fun t => pyStrip (pyLower t)

/-- `ActivityFilter.should_sync`: normalize the classification the same way
and test membership in the block-set. -/
def should_sync (blocked_types : List String) (activity_type : String) : Bool :=
  let normalized_type := pyStrip (pyLower activity_type)
  !(blockedTypesNormalized blocked_types).contains normalized_type

/-- `ActivityFilter.get_block_reason`: `None` when syncable, otherwise
`f"blocked_type:{activity_type.lower()}"` (lowered, *not* stripped). -/
def get_block_reason (blocked_types : List String) (activity_type : String) :
    Option String :=
  if !should_sync blocked_types activity_type then
    some ("blocked_type:" ++ pyLower activity_type)
  else
    none

example : should_sync ["strength_training"] "Strength_Training " = false := by decide

example : get_block_reason ["strength_training"] "Strength_Training" =
    some "blocked_type:strength_training" := by decide

example : should_sync ["strength_training"] "running" = true := by decide

/-! ## `garava/models.py` — data model -/

/-- `ActivityStatus` — terminal status of a processed activity. -/
inductive ActivityStatus
  | synced
  | skipped
  | failed
  | duplicate
deriving DecidableEq, Repr

/-- `Activity` — one record of a processed Garmin activity.

`strava_activity_id`, `skip_reason`, `error_message` are nullable in the
source; `id` (the surrogate key) is irrelevant to the claims and the table
position plays its role. -/
structure Activity where
  garmin_activity_id : String
  activity_type : String
  garmin_start_time : String
  status : ActivityStatus
  activity_name : String := ""
  strava_activity_id : Option String := none
  skip_reason : Option String := none
  error_message : Option String := none
  processed_at : String := ""
deriving DecidableEq, Repr

/-- `GarminActivity` — parsed Garmin API record. (`duration_seconds` and
`distance_meters` are float telemetry fields never consulted by the sync
decisions; floating point is outside the embedding.) -/
structure GarminActivity where
  activity_id : String
  activity_type : String
  activity_name : String
  start_time : String
deriving DecidableEq, Repr

/-- The field of a raw Garmin API response that `from_api_response` reads.
`activityId` is mandatory (`data["activityId"]`, stringified); the rest are
`dict.get` lookups with defaults, flattened here to `Option`s
(`activityTypeKey` stands for `data.get("activityType", {}).get("typeKey")`). -/
structure GarminApiData where
  activityId : String
  activityTypeKey : Option String := none
  activityName : Option String := none
  startTimeGMT : Option String := none
deriving DecidableEq, Repr

/-- `GarminActivity.from_api_response`. -/
def from_api_response (data : GarminApiData) : GarminActivity :=
  { activity_id := data.activityId
    activity_type := data.activityTypeKey.getD "unknown"
    activity_name := data.activityName.getD ""
    start_time := data.startTimeGMT.getD "" }

/-- `SyncRun` — record of one sync cycle (surrogate `id` omitted). -/
structure SyncRun where
  started_at : String := ""
  completed_at : Option String := none
  activities_checked : Nat := 0
  activities_synced : Nat := 0
  activities_skipped : Nat := 0
  activities_failed : Nat := 0
  error : Option String := none
deriving DecidableEq, Repr

/-- `SyncRun.complete`: set the completion timestamp (to the current time,
passed in explicitly). -/
def SyncRun.complete (run : SyncRun) (now : String) : SyncRun :=
  { run with completed_at := some now }

/-! ## `garava/database.py` — the `activities` table

The table is a list of rows in insertion order. The SQL schema declares
`garmin_activity_id TEXT UNIQUE NOT NULL`, so an `INSERT` whose
`garmin_activity_id` collides with any existing row raises
`sqlite3.IntegrityError`; `insert_activity` performs a plain `INSERT` with
no conflict clause, modelled as `Except.error`. -/

abbrev ActivityTable := List Activity

/-- `Database.activity_exists`: `SELECT 1 FROM activities WHERE
garmin_activity_id = ? AND status != 'failed'` — failed rows do not count. -/
def activity_exists (rows : ActivityTable) (garmin_activity_id : String) : Bool :=
  rows.any fun r =>
    r.garmin_activity_id == garmin_activity_id && r.status != ActivityStatus.failed

/-- `Database.get_activity`: first row with the given id (at most one can
exist thanks to the `UNIQUE` constraint). -/
def get_activity (rows : ActivityTable) (garmin_activity_id : String) :
    Option Activity :=
  rows.find? fun r => r.garmin_activity_id == garmin_activity_id

/-- `Database.insert_activity`: plain `INSERT`; the schema-level `UNIQUE`
constraint on `garmin_activity_id` rejects a colliding row. -/
def insert_activity (rows : ActivityTable) (a : Activity) :
    Except String ActivityTable :=
  if rows.any fun r => r.garmin_activity_id == a.garmin_activity_id then
    Except.error "UNIQUE constraint failed: activities.garmin_activity_id"
  else
    Except.ok (rows ++ [a])

/-! ## `garava/strava/upload.py` — upload pipeline

The stravalib interaction (`upload_activity` + `uploader.wait`) is the
environment; its four possible behaviours at the call site are the
constructors of `ProviderOutcome`. -/

/-- What the provider interaction does: `wait` returns an activity,
raises `ActivityUploadFailed`, raises `TimeoutExceeded`, or raises some
other exception (each carrying its message / id as text). -/
inductive ProviderOutcome
  | success (activity_id : String)
  | activityUploadFailed (msg : String)
  | timeoutExceeded (msg : String)
  | otherException (msg : String)
deriving DecidableEq, Repr

/-- `UploadResult` dataclass. -/
structure UploadResult where
  success : Bool
  strava_activity_id : Option String := none
  error : Option String := none
  is_duplicate : Bool := false
  duplicate_id : Option String := none
deriving DecidableEq, Repr

/-- `[:\s]` — the separator class of the first two duplicate-id patterns. -/
def isSepChar (c : Char) : Bool :=
  c = ':' || isPySpace c

/-- Try the regex `key[:\s]+(\d+)` (IGNORECASE) anchored at the start of
`s`: the literal `key` (already lower-case), one or more separators, then
the greedy digit capture. The separator and digit classes are disjoint, so
backtracking never helps and the greedy reading is exact. -/
def matchKeyNumAt (key : List Char) (s : List Char) : Option (List Char) :=
  if key.isPrefixOf (s.map Char.toLower) then
    let rest := s.drop key.length
    let seps := rest.takeWhile isSepChar
    if seps.isEmpty then none
    else
      let digits := (rest.drop seps.length).takeWhile Char.isDigit
      if digits.isEmpty then none else some digits
  else none

/-- `re.search` for `key[:\s]+(\d+)` (IGNORECASE): leftmost start
position wins, as the engine scans positions left to right. -/
def searchKeyNum (key : List Char) : List Char → Option (List Char)
  | [] => matchKeyNumAt key []
  | s@(_ :: t) =>
    match matchKeyNumAt key s with
    | some digits => some digits
    | none => searchKeyNum key t

/-- `re.search` for `(\d{10,})`: leftmost position followed by ten or
more digits; the capture is the greedy (maximal) digit run from there. -/
def searchLongDigits : List Char → Option (List Char)
  | [] => none
  | s@(_ :: t) =>
    let run := s.takeWhile Char.isDigit
    if run.length ≥ 10 then some run else searchLongDigits t

/-- `_parse_duplicate_id`: the three patterns, in priority order
`activity[:\s]+(\d+)`, then `id[:\s]+(\d+)`, then `(\d{10,})`; `None`
when none of them matches. -/
def parseDuplicateId (error_message : String) : Option String :=
  match searchKeyNum "activity".data error_message.data with
  | some digits => some (String.mk digits)
  | none =>
    match searchKeyNum "id".data error_message.data with
    | some digits => some (String.mk digits)
    | none =>
      match searchLongDigits error_message.data with
      | some digits => some (String.mk digits)
      | none => none

/-- `upload_fit_file`, as a function of the provider interaction's
behaviour and the `timeout` argument (the FIT bytes, external id and name
only flow onward to the provider and never influence the classification). -/
def upload_fit_file (outcome : ProviderOutcome) (timeout : Nat) : UploadResult :=
  match outcome with
  | ProviderOutcome.success activity_id =>
    { success := true, strava_activity_id := some activity_id }
  | ProviderOutcome.activityUploadFailed msg =>
    let error_msg := pyLower msg
    if pyContains error_msg "duplicate" then
      let duplicate_id := parseDuplicateId msg
      { success := true   -- not a failure, just already exists
        is_duplicate := true
        duplicate_id := duplicate_id
        strava_activity_id := duplicate_id }
    else
      { success := false, error := some msg }
  | ProviderOutcome.timeoutExceeded _ =>
    { success := false
      error := some ("Upload processing timed out after " ++ toString timeout ++ " seconds") }
  | ProviderOutcome.otherException msg =>
    { success := false, error := some msg }

example : parseDuplicateId "duplicate of activity 4242" = some "4242" := by decide

example : parseDuplicateId "Duplicate: Activity ID: 77, id 88" = some "77" := by decide

example : parseDuplicateId "duplicate upload id: 991" = some "991" := by decide

example : parseDuplicateId "entry 12345678901 is a duplicate" = some "12345678901" := by decide

example : parseDuplicateId "duplicate of a previous upload" = none := by decide

example : upload_fit_file (ProviderOutcome.timeoutExceeded "slow") 120 =
    { success := false, error := some "Upload processing timed out after 120 seconds" } := by
  decide

/-! ## `garava/strava/gear.py` — equipment-tagging pass

A fetched Strava entry carries the fields the pass consults; whether
`update_activity` succeeds for a given entry is part of the environment
(`updateOk`), and the update calls actually issued are logged so that
"no update issued" is an observable statement. -/

/-- The slice of a stravalib activity the gear pass reads
(`str(activity.type)` is the `type` field here; `gear_id` is nullable). -/
structure StravaEntry where
  id : String
  name : String
  type : String
  trainer : Bool
  gear_id : Option String := none
deriving DecidableEq, Repr

/-- `GearRule` dataclass. -/
structure GearRule where
  condition : String
  gear_id : String
deriving DecidableEq, Repr

/-- `GearAssignmentResult` dataclass. -/
structure GearAssignmentResult where
  checked : Nat := 0
  updated : Nat := 0
  already_correct : Nat := 0
  errors : Nat := 0
deriving DecidableEq, Repr

/-- `_matches_rule`: only the `trainer` condition is known — a
trainer-flagged entry whose type is exactly `"Ride"`. -/
def matchesRule (activity : StravaEntry) (rule : GearRule) : Bool :=
  if rule.condition = "trainer" then
    if !activity.trainer then false
    else activity.type == "Ride"
  else
    false

/-- The body of `apply_gear_rules`' `for` loop, one entry at a time:
count it as checked, find the first matching rule, and either skip
(no match), count already-correct (gear already equal, no update call),
or issue the update and count `updated`/`errors` by whether
`update_activity` raised. Also returns the update calls issued,
in order, as `(activity id, gear id)` pairs. -/
def gearStep (rules : List GearRule) (updateOk : StravaEntry → Bool)
    (acc : GearAssignmentResult × List (String × String)) (activity : StravaEntry) :
    GearAssignmentResult × List (String × String) :=
  let result := { acc.1 with checked := acc.1.checked + 1 }
  match rules.find? fun r => matchesRule activity r with
  | none => (result, acc.2)
  | some matched_rule =>
    if activity.gear_id = some matched_rule.gear_id then
      ({ result with already_correct := result.already_correct + 1 }, acc.2)
    else
      let issued := acc.2 ++ [(activity.id, matched_rule.gear_id)]
      if updateOk activity then
        ({ result with updated := result.updated + 1 }, issued)
      else
        ({ result with errors := result.errors + 1 }, issued)

/-- `apply_gear_rules`: a failed fetch (`get_activities` raising) returns
the zeroed result; otherwise every fetched entry is processed in order.
Total — nothing escapes to the caller. -/
def apply_gear_rules (fetch : Except String (List StravaEntry))
    (rules : List GearRule) (updateOk : StravaEntry → Bool) :
    GearAssignmentResult × List (String × String) :=
  match fetch with
  | Except.error _ => ({}, [])
  | Except.ok activities => activities.foldl (gearStep rules updateOk) ({}, [])

/-! ## `garava/sync/core.py` — sync engine

`run_cycle`'s interactions are replaced by explicit outcome values:
what `_ensure_auth` / the activity fetch did, and, per fetched activity,
what `_process_with_auth_recovery` produced. The gear pass
(`_apply_gear_rules`) catches every exception internally and so cannot
disturb the control flow modelled here. -/

/-- The per-activity counter update of `run_cycle`'s loop
(the `if result.action == ...` chain; a `duplicate` counts as success,
`exists` and anything else fall through every branch). -/
def updateRunCounters (run : SyncRun) (action : String) : SyncRun :=
  if action = "synced" then
    { run with activities_synced := run.activities_synced + 1 }
  else if action = "skipped" then
    { run with activities_skipped := run.activities_skipped + 1 }
  else if action = "failed" then
    { run with activities_failed := run.activities_failed + 1 }
  else if action = "duplicate" then
    { run with activities_synced := run.activities_synced + 1 }  -- count as success
  else
    run

/-- The run record produced by a cycle whose activity loop ran to
completion: `activities_checked` is set to the number of fetched
activities up front, then each result's action updates the counters. -/
def tallyRun (actions : List String) : SyncRun :=
  actions.foldl updateRunCounters { activities_checked := actions.length }

/-- What one trip through `run_cycle`'s activity loop yields:
a `ProcessResult` (its `action` tag), `None` from
`_process_with_auth_recovery` (auth recovery failed), or an exception
that propagates out of `process_activity` uncaught. -/
inductive StepOutcome
  | result (action : String)
  | authLost
  | unexpected (msg : String)
deriving DecidableEq, Repr

/-- An exception crossing `run_cycle`'s `try` block. -/
inductive CycleExn
  | auth (msg : String)
  | other (msg : String)
deriving DecidableEq, Repr

/-- The message `run_cycle` raises when auth recovery returns `None`. -/
def midCycleAuthMsg : String :=
  "Garmin session expired mid-cycle and re-auth failed"

/-- `run_cycle`'s activity loop: update counters per result; on a `None`
recovery result raise `AuthenticationError`; an uncaught exception from
`process_activity` aborts the loop as well. Remaining steps are not
consumed once an exception is in flight. -/
def processSteps (run : SyncRun) : List StepOutcome → SyncRun × Option CycleExn
  | [] => (run, none)
  | StepOutcome.result action :: rest => processSteps (updateRunCounters run action) rest
  | StepOutcome.authLost :: _ => (run, some (CycleExn.auth midCycleAuthMsg))
  | StepOutcome.unexpected msg :: _ => (run, some (CycleExn.other msg))

/-- What the environment does to one `run_cycle` call:
`_ensure_auth` raises `AuthenticationError`, the activity fetch raises,
or the loop runs over the fetched activities' step outcomes. -/
inductive CycleEnv
  | authFail (msg : String)
  | fetchFail (msg : String)
  | run (steps : List StepOutcome)
deriving DecidableEq, Repr

/-- Observable outcome of `run_cycle`: the in-memory run record, every
run record passed to `db.update_sync_run` in order, and the exception
re-raised to the caller (only ever an `AuthenticationError`). -/
structure CycleOutput where
  run : SyncRun
  persisted : List SyncRun
  reraised : Option String
deriving DecidableEq, Repr

/-- `SyncEngine.run_cycle`. `db.create_sync_run()` yields a fresh record;
on success the run is completed and persisted; an `AuthenticationError`
is recorded (error + completion timestamp), persisted, and re-raised;
any other exception is recorded, persisted, and swallowed. -/
def run_cycle (env : CycleEnv) (now : String) : CycleOutput :=
  let run0 : SyncRun := {}
  match env with
  | CycleEnv.authFail msg =>
    let run := (run0.complete now : SyncRun)
    let run := { run with error := some msg }
    { run := run, persisted := [run], reraised := some msg }
  | CycleEnv.fetchFail msg =>
    let run := (run0.complete now : SyncRun)
    let run := { run with error := some msg }
    { run := run, persisted := [run], reraised := none }
  | CycleEnv.run steps =>
    let run1 := { run0 with activities_checked := steps.length }
    match processSteps run1 steps with
    | (run, none) =>
      let run := run.complete now
      { run := run, persisted := [run], reraised := none }
    | (run, some (CycleExn.auth msg)) =>
      let run := { run with error := some msg }
      let run := run.complete now
      { run := run, persisted := [run], reraised := some msg }
    | (run, some (CycleExn.other msg)) =>
      let run := { run with error := some msg }
      let run := run.complete now
      { run := run, persisted := [run], reraised := none }

/-- One `process_activity` attempt as the engine sees it: a returned
`ProcessResult` (its action), a raised `GarthException`, a raised
`AuthenticationError`, or any other raised exception. -/
inductive Attempt
  | ok (action : String)
  | garth (msg : String)
  | authErr (msg : String)
  | exn (msg : String)
deriving DecidableEq, Repr

/-- Observable outcome of `_process_with_auth_recovery`: the returned
value (`None` means the caller must abort), an exception it let escape,
and how many `_ensure_auth` calls / `process_activity` attempts ran. -/
structure RecoveryOutput where
  value : Option String
  raised : Option String
  reauthCalls : Nat
  processAttempts : Nat
deriving DecidableEq, Repr

/-- `SyncEngine._process_with_auth_recovery`, as a function of what the
first attempt, the re-authentication (`none` = `_ensure_auth` succeeded,
`some msg` = it raised `AuthenticationError msg`), and the retry do.
Only `GarthException` triggers the recovery path; the first `try` lets
every other exception escape, and the second catches `GarthException`
and `AuthenticationError` (returning `None`) but nothing else. -/
def process_with_auth_recovery (first : Attempt) (reauth : Option String)
    (second : Attempt) : RecoveryOutput :=
  match first with
  | Attempt.ok action => { value := some action, raised := none, reauthCalls := 0, processAttempts := 1 }
  | Attempt.authErr msg => { value := none, raised := some msg, reauthCalls := 0, processAttempts := 1 }
  | Attempt.exn msg => { value := none, raised := some msg, reauthCalls := 0, processAttempts := 1 }
  | Attempt.garth _ =>
    match reauth with
    | some _ => { value := none, raised := none, reauthCalls := 1, processAttempts := 1 }
    | none =>
      match second with
      | Attempt.ok action => { value := some action, raised := none, reauthCalls := 1, processAttempts := 2 }
      | Attempt.garth _ => { value := none, raised := none, reauthCalls := 1, processAttempts := 2 }
      | Attempt.authErr _ => { value := none, raised := none, reauthCalls := 1, processAttempts := 2 }
      | Attempt.exn msg => { value := none, raised := some msg, reauthCalls := 1, processAttempts := 2 }

/-! ## `garava/sync/processor.py` — per-activity pipeline

The FIT download (`download_fit_file`, which wraps extraction) and the
Strava upload are the environment; the store is threaded through
explicitly, and the `sqlite3.IntegrityError` that `insert_activity` can
raise propagates out as `Except.error` (nothing in `process_activity`
catches it). -/

/-- What `download_fit_file` does: returns FIT bytes (their content never
influences the recorded outcome), raises `FitExtractionError`, or raises
some other exception. -/
inductive DownloadOutcome
  | ok
  | fitError (msg : String)
  | otherError (msg : String)
deriving DecidableEq, Repr

/-- The environment of one `process_activity` call: the download
behaviour, the upload provider behaviour, and the wall clock consulted by
the `_record_*` helpers. -/
structure ProcEnv where
  download : DownloadOutcome
  upload : ProviderOutcome
  now : String
deriving DecidableEq, Repr

/-- `ProcessResult` dataclass. (`activity` is optional because the
`exists` branch passes through whatever `db.get_activity` returned.) -/
structure ProcessResult where
  activity : Option Activity
  success : Bool
  action : String
deriving DecidableEq, Repr

/-- `_record_skipped` (the reason is `Optional[str]` in the filter
branch, where it comes from `get_block_reason`). -/
def record_skipped (rows : ActivityTable) (g : GarminActivity)
    (reason : Option String) (now : String) : Except String (Activity × ActivityTable) :=
  let activity : Activity :=
    { garmin_activity_id := g.activity_id
      activity_type := g.activity_type
      activity_name := g.activity_name
      garmin_start_time := g.start_time
      status := ActivityStatus.skipped
      skip_reason := reason
      processed_at := now }
  (insert_activity rows activity).map fun rows => (activity, rows)

/-- `_record_failed`. -/
def record_failed (rows : ActivityTable) (g : GarminActivity)
    (error : String) (now : String) : Except String (Activity × ActivityTable) :=
  let activity : Activity :=
    { garmin_activity_id := g.activity_id
      activity_type := g.activity_type
      activity_name := g.activity_name
      garmin_start_time := g.start_time
      status := ActivityStatus.failed
      error_message := some error
      processed_at := now }
  (insert_activity rows activity).map fun rows => (activity, rows)

/-- `_record_synced`. -/
def record_synced (rows : ActivityTable) (g : GarminActivity)
    (strava_id : Option String) (now : String) : Except String (Activity × ActivityTable) :=
  let activity : Activity :=
    { garmin_activity_id := g.activity_id
      activity_type := g.activity_type
      activity_name := g.activity_name
      garmin_start_time := g.start_time
      status := ActivityStatus.synced
      strava_activity_id := strava_id
      processed_at := now }
  (insert_activity rows activity).map fun rows => (activity, rows)

/-- `_record_duplicate`. -/
def record_duplicate (rows : ActivityTable) (g : GarminActivity)
    (strava_id : Option String) (now : String) : Except String (Activity × ActivityTable) :=
  let activity : Activity :=
    { garmin_activity_id := g.activity_id
      activity_type := g.activity_type
      activity_name := g.activity_name
      garmin_start_time := g.start_time
      status := ActivityStatus.duplicate
      strava_activity_id := strava_id
      processed_at := now }
  (insert_activity rows activity).map fun rows => (activity, rows)

/-- `process_activity`: the strict decision order of the pipeline —
idempotency check, filter, initial-sync boundary, download, upload —
with every branch writing at most one row. The upload's `timeout`
argument keeps its default of 120 seconds. -/
def process_activity (g : GarminActivity) (rows : ActivityTable)
    (blocked_types : List String) (initial_sync_time : Option String)
    (env : ProcEnv) : Except String (ProcessResult × ActivityTable) :=
  -- Check if already processed (idempotency)
  if activity_exists rows g.activity_id then
    Except.ok
      ({ activity := get_activity rows g.activity_id, success := true, action := "exists" }, rows)
  -- Check filter
  else if !should_sync blocked_types g.activity_type then
    let reason := get_block_reason blocked_types g.activity_type
    (record_skipped rows g reason env.now).map fun p =>
      ({ activity := some p.1, success := true, action := "skipped" }, p.2)
  -- Check initial sync boundary (normalized date formats)
  else if pyTruthy initial_sync_time &&
      pyStrLt (normalizeTime g.start_time) (normalizeTime (initial_sync_time.getD "")) then
    (record_skipped rows g (some "before_initial_sync") env.now).map fun p =>
      ({ activity := some p.1, success := true, action := "skipped" }, p.2)
  else
    -- Download FIT file
    match env.download with
    | DownloadOutcome.fitError msg =>
      (record_failed rows g msg env.now).map fun p =>
        ({ activity := some p.1, success := false, action := "failed" }, p.2)
    | DownloadOutcome.otherError msg =>
      (record_failed rows g ("Download failed: " ++ msg) env.now).map fun p =>
        ({ activity := some p.1, success := false, action := "failed" }, p.2)
    | DownloadOutcome.ok =>
      -- Upload to Strava, then record the result
      let result := upload_fit_file env.upload 120
      if result.is_duplicate then
        (record_duplicate rows g result.duplicate_id env.now).map fun p =>
          ({ activity := some p.1, success := true, action := "duplicate" }, p.2)
      else if result.success then
        (record_synced rows g result.strava_activity_id env.now).map fun p =>
          ({ activity := some p.1, success := true, action := "synced" }, p.2)
      else
        (record_failed rows g (result.error.getD "Unknown error") env.now).map fun p =>
          ({ activity := some p.1, success := false, action := "failed" }, p.2)


/-- Decidable equality for `Except`, for evaluating the processor's
results on concrete inputs. -/
instance {e a : Type} [DecidableEq e] [DecidableEq a] : DecidableEq (Except e a) :=
  fun x y =>
    match x, y with
    | Except.error u, Except.error v =>
      if h : u = v then isTrue (by rw [h]) else isFalse (by intro hc; cases hc; exact h rfl)
    | Except.error _, Except.ok _ => isFalse (by intro hc; cases hc)
    | Except.ok _, Except.error _ => isFalse (by intro hc; cases hc)
    | Except.ok u, Except.ok v =>
      if h : u = v then isTrue (by rw [h]) else isFalse (by intro hc; cases hc; exact h rfl)

/-- Concrete Garmin activities and rows used by the smoke tests below. -/
def gRun123 : GarminActivity :=
  { activity_id := "123", activity_type := "running", activity_name := ""
    start_time := "2024-05-01 10:00:00" }

def rowFailed123 : Activity :=
  { garmin_activity_id := "123", activity_type := "running"
    garmin_start_time := "2024-05-01 10:00:00"
    status := ActivityStatus.failed, error_message := some "boom" }

def rowSynced123 : Activity :=
  { garmin_activity_id := "123", activity_type := "running"
    garmin_start_time := "2024-05-01 10:00:00"
    status := ActivityStatus.synced, strava_activity_id := some "55" }

def envOkUpload : ProcEnv :=
  { download := DownloadOutcome.ok, upload := ProviderOutcome.success "55", now := "t1" }

example :
    process_activity gRun123 [rowFailed123] [] none envOkUpload =
      Except.error "UNIQUE constraint failed: activities.garmin_activity_id" := by decide

example :
    process_activity gRun123 [rowSynced123] [] none envOkUpload =
      Except.ok
        ({ activity := some rowSynced123, success := true, action := "exists" },
          [rowSynced123]) := by decide

def gStrength : GarminActivity :=
  { activity_id := "9", activity_type := "strength_training", activity_name := ""
    start_time := "2020-01-01 00:00:00" }

example :
    (process_activity gStrength [] ["strength_training"] (some "2024-01-01T00:00:00")
        envOkUpload).toOption.map
      (fun p => (p.1.action, p.2.map Activity.skip_reason)) =
    some ("skipped", [some "blocked_type:strength_training"]) := by decide

/-! ## Shared helper lemmas -/

/-- If no row carries the given id, the idempotency check fails. -/
theorem activity_exists_eq_false (rows : ActivityTable) (id : String)
    (h : ∀ r ∈ rows, r.garmin_activity_id ≠ id) :
    activity_exists rows id = false := by
  unfold activity_exists
  rw [List.any_eq_false]
  intro r hr
  simp [h r hr]

/-- If no row carries the id of the new row, the `INSERT` commits. -/
theorem insert_activity_ok (rows : ActivityTable) (a : Activity)
    (h : ∀ r ∈ rows, r.garmin_activity_id ≠ a.garmin_activity_id) :
    insert_activity rows a = Except.ok (rows ++ [a]) := by
  unfold insert_activity
  rw [if_neg]
  intro hc
  rw [List.any_eq_true] at hc
  obtain ⟨r, hr, hbeq⟩ := hc
  exact h r hr (by simpa using hbeq)

/-- The row written by the boundary branch of the processor. -/
def beforeBoundaryRow (g : GarminActivity) (now : String) : Activity :=
  { garmin_activity_id := g.activity_id
    activity_type := g.activity_type
    activity_name := g.activity_name
    garmin_start_time := g.start_time
    status := ActivityStatus.skipped
    skip_reason := some "before_initial_sync"
    processed_at := now }

/-- The boundary branch of `process_activity`, taken whenever the id is
fresh, the filter lets the classification through, the boundary string is
truthy and the normalized start time lexically precedes it. -/
theorem process_activity_boundary_skip (g : GarminActivity) (rows : ActivityTable)
    (blocked_types : List String) (ist : Option String) (env : ProcEnv)
    (hnew : ∀ r ∈ rows, r.garmin_activity_id ≠ g.activity_id)
    (hfilter : should_sync blocked_types g.activity_type = true)
    (hb : pyTruthy ist = true)
    (hlt : pyStrLt (normalizeTime g.start_time) (normalizeTime (ist.getD "")) = true) :
    process_activity g rows blocked_types ist env =
      Except.ok
        ({ activity := some (beforeBoundaryRow g env.now), success := true, action := "skipped" },
          rows ++ [beforeBoundaryRow g env.now]) := by
  have hex := activity_exists_eq_false rows g.activity_id hnew
  have hins := insert_activity_ok rows (beforeBoundaryRow g env.now) hnew
  unfold process_activity
  rw [hex]
  simp only [Bool.false_eq_true, if_false, hfilter, Bool.not_true, hb, hlt, Bool.and_self,
    if_true]
  unfold record_skipped
  simp [beforeBoundaryRow] at hins
  simp [hins, beforeBoundaryRow, Except.map]

/-! ## C9 — filter block-reason agreement -/

/-- C9: for every classification `t`, `should_sync` returns `false` iff
`get_block_reason` returns a non-`None` value, and a non-`None` reason is
exactly the fixed prefix `blocked_type:` followed by the lowercased (but
not whitespace-trimmed) classification. Both are pure functions of the
filter's block-set, so determinism is immediate. -/
theorem filter_block_reason_agrees (blocked_types : List String) (t : String) :
    (should_sync blocked_types t = false ↔
      (get_block_reason blocked_types t).isSome = true) ∧
    (∀ r, get_block_reason blocked_types t = some r →
      r = "blocked_type:" ++ pyLower t) := by
  refine ⟨⟨fun h => ?_, fun h => ?_⟩, fun r hr => ?_⟩
  · simp [get_block_reason, h]
  · cases hss : should_sync blocked_types t
    · rfl
    · rw [get_block_reason, hss] at h
      simp at h
  · unfold get_block_reason at hr
    split at hr
    · exact (Option.some.inj hr).symm
    · cases hr

/-- Witness for C9 at the spec's own scenario classification. -/
theorem filter_block_reason_agrees_witness :
    "blocked_type:strength_training" = "blocked_type:" ++ pyLower "Strength_Training" ∧
    (get_block_reason ["strength_training"] "Strength_Training").isSome = true :=
  ⟨(filter_block_reason_agrees ["strength_training"] "Strength_Training").2
      "blocked_type:strength_training" (by decide),
    (filter_block_reason_agrees ["strength_training"] "Strength_Training").1.1 (by decide)⟩

/-! ## C1 — run-record counter invariant -/

/-- Effect of the counter-update fold on each field, for any starting
record: `synced` gains the `synced` and `duplicate` tallies, `skipped`
and `failed` their own tallies, and `checked` is untouched by the loop. -/
theorem tally_fold_counts (actions : List String) (r : SyncRun) :
    (actions.foldl updateRunCounters r).activities_checked = r.activities_checked ∧
    (actions.foldl updateRunCounters r).activities_synced =
      r.activities_synced + actions.count "synced" + actions.count "duplicate" ∧
    (actions.foldl updateRunCounters r).activities_skipped =
      r.activities_skipped + actions.count "skipped" ∧
    (actions.foldl updateRunCounters r).activities_failed =
      r.activities_failed + actions.count "failed" := by
  induction actions generalizing r with
  | nil => simp
  | cons a as ih =>
    obtain ⟨hc, hsy, hsk, hf⟩ := ih (updateRunCounters r a)
    rw [List.foldl_cons]
    refine ⟨?_, ?_, ?_, ?_⟩ <;>
      · first
          | rw [hc] | rw [hsy] | rw [hsk] | rw [hf]
        unfold updateRunCounters
        by_cases h1 : a = "synced" <;> by_cases h2 : a = "skipped" <;>
          by_cases h3 : a = "failed" <;> by_cases h4 : a = "duplicate" <;>
          simp_all [List.count_cons] <;> omega

/-- A list made of the five action tags has length equal to the sum of
their tallies. -/
theorem length_eq_tally_sum (actions : List String)
    (h : ∀ a ∈ actions, a ∈ ["synced", "skipped", "failed", "duplicate", "exists"]) :
    actions.length =
      actions.count "synced" + actions.count "skipped" + actions.count "failed" +
        actions.count "duplicate" + actions.count "exists" := by
  induction actions with
  | nil => simp
  | cons a as ih =>
    have ha := h a (List.mem_cons_self a as)
    have has : ∀ x ∈ as, x ∈ ["synced", "skipped", "failed", "duplicate", "exists"] :=
      fun x hx => h x (List.mem_cons_of_mem a hx)
    have := ih has
    simp only [List.mem_cons, List.mem_singleton, List.not_mem_nil, or_false] at ha
    rcases ha with h1 | h1 | h1 | h1 | h1 <;> subst h1 <;>
      simp [List.count_cons] <;> omega

/-- C1 counterexample: a completed cycle whose single activity yields
outcome `exists` has `checked = 1` but `synced + skipped + failed = 0` —
an `exists` outcome is *not* excluded from `checked`, because
`run.activities_checked` is set to the full fetched-batch length before
the loop runs. -/
theorem run_counters_claim_counterexample :
    ¬ ((tallyRun ["exists"]).activities_checked =
        (tallyRun ["exists"]).activities_synced +
          (tallyRun ["exists"]).activities_skipped +
          (tallyRun ["exists"]).activities_failed) := by
  decide

/-- C1 (amended): for a cycle that completes its activity loop,
`checked = synced + skipped + failed + (number of exists outcomes)` —
`duplicate` folds into `synced`, and `exists` is excluded from the three
outcome counters but *included* in `checked`. -/
theorem run_counters_invariant (actions : List String)
    (h : ∀ a ∈ actions, a ∈ ["synced", "skipped", "failed", "duplicate", "exists"]) :
    (tallyRun actions).activities_checked =
      (tallyRun actions).activities_synced + (tallyRun actions).activities_skipped +
        (tallyRun actions).activities_failed + actions.count "exists" := by
  obtain ⟨hc, hsy, hsk, hf⟩ :=
    tally_fold_counts actions { activities_checked := actions.length }
  unfold tallyRun
  rw [hc, hsy, hsk, hf]
  have := length_eq_tally_sum actions h
  simp only []
  omega

/-- Witness for C1 (amended) on a mixed batch. -/
theorem run_counters_invariant_witness :
    (tallyRun ["synced", "duplicate", "exists", "failed", "skipped"]).activities_checked =
      (tallyRun ["synced", "duplicate", "exists", "failed", "skipped"]).activities_synced +
        (tallyRun ["synced", "duplicate", "exists", "failed", "skipped"]).activities_skipped +
        (tallyRun ["synced", "duplicate", "exists", "failed", "skipped"]).activities_failed +
        (["synced", "duplicate", "exists", "failed", "skipped"] : List String).count "exists" :=
  run_counters_invariant ["synced", "duplicate", "exists", "failed", "skipped"] (by decide)

/-! ## C2 — reprocessing after a FAILED row -/

/-- C2: a FAILED row does not gate the idempotency check — correct so
far — but the claimed "successfully inserted row for the same source
activity identifier" is impossible: the schema's `UNIQUE` constraint on
`garmin_activity_id` makes the retry's `INSERT` raise
`sqlite3.IntegrityError` (nothing deletes the FAILED row first;
`delete_failed_activity` exists but is never called on this path). Here
the whole pipeline runs again for id `123` and dies at the insert. -/
theorem failed_retry_unique_violation :
    activity_exists [rowFailed123] "123" = false ∧
    process_activity gRun123 [rowFailed123] [] none envOkUpload =
      Except.error "UNIQUE constraint failed: activities.garmin_activity_id" := by
  decide

/-! ## C4 — exists short-circuit -/

/-- C4: an activity already recorded with a non-FAILED status
(SYNCED, SKIPPED or DUPLICATE) short-circuits: outcome `exists`, carrying
the stored record (whose id matches), and the table is unchanged. -/
theorem process_exists_short_circuit (g : GarminActivity) (rows : ActivityTable)
    (blocked_types : List String) (ist : Option String) (env : ProcEnv)
    (h : ∃ r ∈ rows, r.garmin_activity_id = g.activity_id ∧
      r.status ≠ ActivityStatus.failed) :
    process_activity g rows blocked_types ist env =
      Except.ok
        ({ activity := get_activity rows g.activity_id, success := true, action := "exists" },
          rows) ∧
    ∃ r, get_activity rows g.activity_id = some r ∧
      r.garmin_activity_id = g.activity_id := by
  obtain ⟨r, hr, hid, hst⟩ := h
  have hex : activity_exists rows g.activity_id = true := by
    unfold activity_exists
    rw [List.any_eq_true]
    exact ⟨r, hr, by simp [hid, hst]⟩
  constructor
  · unfold process_activity
    rw [hex, if_pos rfl]
  · have hsome : (rows.find? fun r2 => r2.garmin_activity_id == g.activity_id).isSome := by
      rw [List.find?_isSome]
      exact ⟨r, hr, by simp [hid]⟩
    obtain ⟨r2, hr2⟩ := Option.isSome_iff_exists.mp hsome
    refine ⟨r2, hr2, ?_⟩
    have := List.find?_some hr2
    simpa using this

/-- Witness for C4: a stored SYNCED row for id `123`. -/
theorem process_exists_short_circuit_witness :
    process_activity gRun123 [rowSynced123] [] none envOkUpload =
      Except.ok
        ({ activity := get_activity [rowSynced123] "123", success := true, action := "exists" },
          [rowSynced123]) :=
  (process_exists_short_circuit gRun123 [rowSynced123] [] none envOkUpload
    ⟨rowSynced123, by decide, by decide, by decide⟩).1

/-! ## C3 — before-initial-sync skipping -/

/-- C3 counterexample: an unrecorded activity whose normalized start time
precedes the normalized boundary but whose classification is blocked is
skipped with the *block* reason, not `before_initial_sync` — the filter
branch runs first, so the claim's "regardless of the activity's
classification" fails. -/
theorem before_boundary_claim_counterexample :
    pyStrLt (normalizeTime gStrength.start_time) (normalizeTime "2024-01-01T00:00:00") = true ∧
    activity_exists [] gStrength.activity_id = false ∧
    (process_activity gStrength [] ["strength_training"] (some "2024-01-01T00:00:00")
        envOkUpload).toOption.map (fun p => p.2.map Activity.skip_reason) =
      some [some "blocked_type:strength_training"] ∧
    (some "blocked_type:strength_training" : Option String) ≠ some "before_initial_sync" := by
  decide

/-- C3 (amended): for an activity whose id has no row at all (a lone
FAILED row would instead trip the store's uniqueness violation — see
`failed_retry_unique_violation`) and whose classification *passes the
filter*, a truthy boundary that the normalized start time lexically
precedes yields outcome `skipped` and one SKIPPED row with reason
`before_initial_sync`; a blocked classification is still skipped, but
with the block reason instead. -/
theorem before_boundary_skips (g : GarminActivity) (rows : ActivityTable)
    (blocked_types : List String) (ist : Option String) (env : ProcEnv)
    (hnew : ∀ r ∈ rows, r.garmin_activity_id ≠ g.activity_id)
    (hfilter : should_sync blocked_types g.activity_type = true)
    (hb : pyTruthy ist = true)
    (hlt : pyStrLt (normalizeTime g.start_time) (normalizeTime (ist.getD "")) = true) :
    process_activity g rows blocked_types ist env =
      Except.ok
        ({ activity := some (beforeBoundaryRow g env.now), success := true, action := "skipped" },
          rows ++ [beforeBoundaryRow g env.now]) ∧
    (beforeBoundaryRow g env.now).status = ActivityStatus.skipped ∧
    (beforeBoundaryRow g env.now).skip_reason = some "before_initial_sync" ∧
    (beforeBoundaryRow g env.now).garmin_activity_id = g.activity_id :=
  ⟨process_activity_boundary_skip g rows blocked_types ist env hnew hfilter hb hlt,
    rfl, rfl, rfl⟩

/-- A fresh early running activity, not blocked by any filter. -/
def gEarlyRun : GarminActivity :=
  { activity_id := "7", activity_type := "running", activity_name := "Morning Run"
    start_time := "2020-01-01 00:00:00" }

/-- Witness for C3 (amended). -/
theorem before_boundary_skips_witness :
    process_activity gEarlyRun [] ["strength_training"] (some "2024-01-01T00:00:00")
        envOkUpload =
      Except.ok
        ({ activity := some (beforeBoundaryRow gEarlyRun "t1"), success := true,
            action := "skipped" },
          [beforeBoundaryRow gEarlyRun "t1"]) :=
  (before_boundary_skips gEarlyRun [] ["strength_training"] (some "2024-01-01T00:00:00")
    envOkUpload (by decide) (by decide) (by decide) (by decide)).1

/-! ## C10 — records lacking a start time -/

/-- C10: a Garmin record with no `startTimeGMT` parses to the empty
start time; the empty string lexically precedes every non-empty
normalized boundary, so once the boundary is set such an activity — if
unrecorded and unfiltered — lands in the `before_initial_sync` SKIPPED
branch rather than being uploaded. -/
theorem missing_start_time_skipped (data : GarminApiData) (rows : ActivityTable)
    (blocked_types : List String) (b : String) (env : ProcEnv)
    (hmiss : data.startTimeGMT = none)
    (hnew : ∀ r ∈ rows, r.garmin_activity_id ≠ data.activityId)
    (hfilter : should_sync blocked_types (from_api_response data).activity_type = true)
    (hb : b ≠ "") :
    (from_api_response data).start_time = "" ∧
    pyStrLt (normalizeTime "") (normalizeTime b) = true ∧
    process_activity (from_api_response data) rows blocked_types (some b) env =
      Except.ok
        ({ activity := some (beforeBoundaryRow (from_api_response data) env.now),
            success := true, action := "skipped" },
          rows ++ [beforeBoundaryRow (from_api_response data) env.now]) ∧
    (beforeBoundaryRow (from_api_response data) env.now).skip_reason =
      some "before_initial_sync" := by
  have hstart : (from_api_response data).start_time = "" := by
    simp [from_api_response, hmiss]
  have hbdata : b.data ≠ [] := fun hc => hb (by cases b; simp_all)
  have hlt : pyStrLt (normalizeTime "") (normalizeTime b) = true := by
    unfold pyStrLt normalizeTime
    cases hd : b.data with
    | nil => exact absurd hd hbdata
    | cons c cs => simp [hd, lexLt]
  refine ⟨hstart, hlt, ?_, rfl⟩
  have htruthy : pyTruthy (some b) = true := by
    simp [pyTruthy, hbdata]
  have hlt2 : pyStrLt (normalizeTime (from_api_response data).start_time)
      (normalizeTime ((some b : Option String).getD "")) = true := by
    rw [hstart]
    exact hlt
  exact process_activity_boundary_skip (from_api_response data) rows blocked_types
    (some b) env (fun r hr => by simpa [from_api_response] using hnew r hr)
    hfilter htruthy hlt2

/-- A raw Garmin record with no start time at all. -/
def apiNoStart : GarminApiData :=
  { activityId := "31", activityTypeKey := some "running", activityName := some "X" }

/-- Witness for C10. -/
theorem missing_start_time_skipped_witness :
    (from_api_response apiNoStart).start_time = "" ∧
    process_activity (from_api_response apiNoStart) [] [] (some "2024-01-01T00:00:00")
        envOkUpload =
      Except.ok
        ({ activity := some (beforeBoundaryRow (from_api_response apiNoStart) "t1"),
            success := true, action := "skipped" },
          [beforeBoundaryRow (from_api_response apiNoStart) "t1"]) :=
  ⟨(missing_start_time_skipped apiNoStart [] [] "2024-01-01T00:00:00" envOkUpload
      rfl (by decide) (by decide) (by decide)).1,
    (missing_start_time_skipped apiNoStart [] [] "2024-01-01T00:00:00" envOkUpload
      rfl (by decide) (by decide) (by decide)).2.2.1⟩

/-! ## C5 — upload outcome classification -/

/-- C5: the upload outcome classification is total. Provider success maps
to success with the terminal id; a provider error whose lowered text
contains `duplicate` maps to success with `is_duplicate` and the
best-effort id recovered by `parseDuplicateId` (three patterns in
priority order; `none` is acceptable); a non-duplicate provider error
maps to failure with the provider message; a poll timeout maps to
failure with the fixed timeout message; any other exception maps to
failure with its text. Every outcome yields exactly one `UploadResult`
(the function is total) and every failure carries an error message. -/
theorem upload_outcome_classification (t : Nat) (activity_id msg : String) :
    upload_fit_file (ProviderOutcome.success activity_id) t =
      { success := true, strava_activity_id := some activity_id } ∧
    (pyContains (pyLower msg) "duplicate" = true →
      upload_fit_file (ProviderOutcome.activityUploadFailed msg) t =
        { success := true, is_duplicate := true,
          duplicate_id := parseDuplicateId msg,
          strava_activity_id := parseDuplicateId msg }) ∧
    (pyContains (pyLower msg) "duplicate" = false →
      upload_fit_file (ProviderOutcome.activityUploadFailed msg) t =
        { success := false, error := some msg }) ∧
    upload_fit_file (ProviderOutcome.timeoutExceeded msg) t =
      { success := false,
        error := some ("Upload processing timed out after " ++ toString t ++ " seconds") } ∧
    upload_fit_file (ProviderOutcome.otherException msg) t =
      { success := false, error := some msg } ∧
    (∀ outcome : ProviderOutcome,
      (upload_fit_file outcome t).success = true ∨
        ((upload_fit_file outcome t).success = false ∧
          ((upload_fit_file outcome t).error).isSome = true)) := by
  refine ⟨rfl, fun h => ?_, fun h => ?_, rfl, rfl, fun outcome => ?_⟩
  · simp [upload_fit_file, h]
  · simp [upload_fit_file, h]
  · cases outcome with
    | success activity_id2 => left; rfl
    | activityUploadFailed msg2 =>
      by_cases h2 : pyContains (pyLower msg2) "duplicate"
      · left; simp [upload_fit_file, h2]
      · right
        constructor <;> simp [upload_fit_file, h2]
    | timeoutExceeded msg2 => right; exact ⟨rfl, rfl⟩
    | otherException msg2 => right; exact ⟨rfl, rfl⟩

/-- Witness for C5: a duplicate-text provider error with a recoverable
id, plus one with an unrecoverable id (`none` is acceptable). -/
theorem upload_outcome_classification_witness :
    upload_fit_file (ProviderOutcome.activityUploadFailed "duplicate of activity 4242") 120 =
      { success := true, is_duplicate := true,
        duplicate_id := parseDuplicateId "duplicate of activity 4242",
        strava_activity_id := parseDuplicateId "duplicate of activity 4242" } ∧
    upload_fit_file (ProviderOutcome.activityUploadFailed "a duplicate was found") 120 =
      { success := true, is_duplicate := true, duplicate_id := none,
        strava_activity_id := none } ∧
    upload_fit_file (ProviderOutcome.activityUploadFailed "malformed FIT data") 120 =
      { success := false, error := some "malformed FIT data" } :=
  ⟨(upload_outcome_classification 120 "1" "duplicate of activity 4242").2.1 (by decide),
    by
      have h := (upload_outcome_classification 120 "1" "a duplicate was found").2.1 (by decide)
      rw [h]
      decide,
    (upload_outcome_classification 120 "1" "malformed FIT data").2.2.1 (by decide)⟩

/-! ## C8 — gear pass containment -/

/-- Componentwise sum of two gear-pass tallies. -/
def GearAssignmentResult.add (x y : GearAssignmentResult) : GearAssignmentResult :=
  { checked := x.checked + y.checked
    updated := x.updated + y.updated
    already_correct := x.already_correct + y.already_correct
    errors := x.errors + y.errors }

/-- One loop step only ever adds to the accumulated tallies and appends
to the accumulated update log — its contribution is independent of the
accumulator. -/
theorem gearStep_shift (rules : List GearRule) (updateOk : StravaEntry → Bool)
    (acc : GearAssignmentResult × List (String × String)) (e : StravaEntry) :
    gearStep rules updateOk acc e =
      (acc.1.add (gearStep rules updateOk ({}, []) e).1,
        acc.2 ++ (gearStep rules updateOk ({}, []) e).2) := by
  obtain ⟨res, log⟩ := acc
  obtain ⟨c, u, ac, er⟩ := res
  unfold gearStep
  cases hf : rules.find? fun r => matchesRule e r with
  | none => simp [GearAssignmentResult.add]
  | some matched_rule =>
    by_cases hg : e.gear_id = some matched_rule.gear_id
    · simp [hg, GearAssignmentResult.add]
    · by_cases hu : updateOk e
      · simp [hg, hu, GearAssignmentResult.add]
      · simp [hg, hu, GearAssignmentResult.add]

/-- The whole loop decomposes the same way: running it from any
accumulator equals its zero-start tally added onto that accumulator. -/
theorem gearFold_shift (rules : List GearRule) (updateOk : StravaEntry → Bool)
    (es : List StravaEntry) (acc : GearAssignmentResult × List (String × String)) :
    es.foldl (gearStep rules updateOk) acc =
      (acc.1.add (es.foldl (gearStep rules updateOk) ({}, [])).1,
        acc.2 ++ (es.foldl (gearStep rules updateOk) ({}, [])).2) := by
  induction es generalizing acc with
  | nil =>
    obtain ⟨⟨c, u, ac, er⟩, log⟩ := acc
    simp [GearAssignmentResult.add]
  | cons e es ih =>
    rw [List.foldl_cons, List.foldl_cons, ih (gearStep rules updateOk acc e),
      ih (gearStep rules updateOk ({}, []) e)]
    rw [gearStep_shift rules updateOk acc e]
    obtain ⟨⟨c, u, ac, er⟩, log⟩ := acc
    simp [GearAssignmentResult.add]
    omega

/-- C8: the gear pass is contained. A fetch-level failure returns the
zeroed result (never raising — the embedding is a total function); every
fetched entry is matched against the rules in listed order and only the
first match is applied; an entry whose gear already equals the matched
rule's target counts as `already_correct` with no update call issued; an
entry whose update fails counts as an error, with the update log showing
the attempted call; and the tallies over a concatenation are the sums of
the parts' tallies — so a failing entry never aborts the remaining
entries or the pass. -/
theorem gear_pass_contained (rules : List GearRule) (updateOk : StravaEntry → Bool)
    (msg : String) (xs ys : List StravaEntry) (e : StravaEntry) (r : GearRule) :
    apply_gear_rules (Except.error msg) rules updateOk = ({}, []) ∧
    ((apply_gear_rules (Except.ok (xs ++ ys)) rules updateOk).1 =
        (apply_gear_rules (Except.ok xs) rules updateOk).1.add
          (apply_gear_rules (Except.ok ys) rules updateOk).1 ∧
      (apply_gear_rules (Except.ok (xs ++ ys)) rules updateOk).2 =
        (apply_gear_rules (Except.ok xs) rules updateOk).2 ++
          (apply_gear_rules (Except.ok ys) rules updateOk).2) ∧
    ((rules.find? fun rl => matchesRule e rl) = some r →
      (e.gear_id = some r.gear_id →
        apply_gear_rules (Except.ok [e]) rules updateOk =
          ({ checked := 1, already_correct := 1 }, [])) ∧
      (e.gear_id ≠ some r.gear_id → updateOk e = true →
        apply_gear_rules (Except.ok [e]) rules updateOk =
          ({ checked := 1, updated := 1 }, [(e.id, r.gear_id)])) ∧
      (e.gear_id ≠ some r.gear_id → updateOk e = false →
        apply_gear_rules (Except.ok [e]) rules updateOk =
          ({ checked := 1, errors := 1 }, [(e.id, r.gear_id)]))) ∧
    ((rules.find? fun rl => matchesRule e rl) = none →
      apply_gear_rules (Except.ok [e]) rules updateOk = ({ checked := 1 }, [])) := by
  refine ⟨rfl, ?_, fun hf => ⟨fun hg => ?_, fun hg hu => ?_, fun hg hu => ?_⟩, fun hf => ?_⟩
  · show (List.foldl (gearStep rules updateOk) ({}, []) (xs ++ ys)).1 = _ ∧
      (List.foldl (gearStep rules updateOk) ({}, []) (xs ++ ys)).2 = _
    rw [List.foldl_append,
      gearFold_shift rules updateOk ys (xs.foldl (gearStep rules updateOk) ({}, []))]
    exact ⟨rfl, rfl⟩
  · simp [apply_gear_rules, gearStep, hf, hg]
  · simp [apply_gear_rules, gearStep, hf, hg, hu]
  · simp [apply_gear_rules, gearStep, hf, hg, hu]
  · simp [apply_gear_rules, gearStep, hf]

/-- Entries and rule used by the C8 witness (the spec's own scenario:
rule `trainer:gearA`, one trainer-flagged Ride with different gear). -/
def trainerRule : GearRule := { condition := "trainer", gear_id := "gearA" }

def trainerRide : StravaEntry :=
  { id := "900", name := "Zwift", type := "Ride", trainer := true, gear_id := some "gearB" }

/-- Witness for C8: the update succeeds, so the scenario yields
`checked=1, updated=1, already_correct=0, errors=0` and one issued call. -/
theorem gear_pass_contained_witness :
    apply_gear_rules (Except.ok [trainerRide]) [trainerRule] (fun _ => true) =
      ({ checked := 1, updated := 1 }, [("900", "gearA")]) ∧
    apply_gear_rules (Except.error "fetch failed") [trainerRule] (fun _ => true) =
      ({}, []) :=
  ⟨((gear_pass_contained [trainerRule] (fun _ => true) "fetch failed" [] []
        trainerRide trainerRule).2.2.1 (by decide)).2.1 (by decide) rfl,
    (gear_pass_contained [trainerRule] (fun _ => true) "fetch failed" [] []
        trainerRide trainerRule).1⟩

/-! ## C6 — run finalization and error containment -/

/-- After any prefix of normal results, an uncaught `process_activity`
exception aborts the loop with a generic (non-auth) exception. -/
theorem processSteps_unexpected (r : SyncRun) (pre rest : List StepOutcome) (m : String)
    (h : ∀ s ∈ pre, ∃ a, s = StepOutcome.result a) :
    ∃ r2, processSteps r (pre ++ StepOutcome.unexpected m :: rest) =
      (r2, some (CycleExn.other m)) := by
  induction pre generalizing r with
  | nil => exact ⟨r, rfl⟩
  | cons s pre ih =>
    obtain ⟨a, ha⟩ := h s (List.mem_cons_self s pre)
    subst ha
    exact ih (updateRunCounters r a) fun s2 hs2 => h s2 (List.mem_cons_of_mem _ hs2)

/-- After any prefix of normal results, a failed auth recovery aborts the
loop with the fatal mid-cycle `AuthenticationError`. -/
theorem processSteps_authLost (r : SyncRun) (pre rest : List StepOutcome)
    (h : ∀ s ∈ pre, ∃ a, s = StepOutcome.result a) :
    ∃ r2, processSteps r (pre ++ StepOutcome.authLost :: rest) =
      (r2, some (CycleExn.auth midCycleAuthMsg)) := by
  induction pre generalizing r with
  | nil => exact ⟨r, rfl⟩
  | cons s pre ih =>
    obtain ⟨a, ha⟩ := h s (List.mem_cons_self s pre)
    subst ha
    exact ih (updateRunCounters r a) fun s2 hs2 => h s2 (List.mem_cons_of_mem _ hs2)

/-- C6: every cycle — however its environment behaves — ends with the
completion timestamp set and the run persisted exactly once; whenever an
exception is re-raised to the caller (only `AuthenticationError` ever
is), the persisted run already carries its error and completion
timestamp; an `AuthenticationError` from the auth step is recorded and
re-raised; any unexpected exception (a failing fetch, or an exception
escaping `process_activity` mid-loop after any prefix of normal results)
is recorded on the run and swallowed, the cycle returning a result. -/
theorem cycle_finalized_once (env : CycleEnv) (now m : String)
    (pre rest : List StepOutcome) :
    ((run_cycle env now).run.completed_at = some now ∧
      (run_cycle env now).persisted = [(run_cycle env now).run] ∧
      ((run_cycle env now).reraised.isSome = true →
        (run_cycle env now).run.error.isSome = true)) ∧
    ((run_cycle (CycleEnv.authFail m) now).reraised = some m ∧
      (run_cycle (CycleEnv.authFail m) now).run.error = some m) ∧
    ((run_cycle (CycleEnv.fetchFail m) now).reraised = none ∧
      (run_cycle (CycleEnv.fetchFail m) now).run.error = some m) ∧
    ((∀ s ∈ pre, ∃ a, s = StepOutcome.result a) →
      (run_cycle (CycleEnv.run (pre ++ StepOutcome.unexpected m :: rest)) now).reraised =
          none ∧
      (run_cycle (CycleEnv.run (pre ++ StepOutcome.unexpected m :: rest)) now).run.error =
          some m) := by
  refine ⟨?_, ⟨rfl, rfl⟩, ⟨rfl, rfl⟩, fun hpre => ?_⟩
  · cases env with
    | authFail m2 => exact ⟨rfl, rfl, fun _ => rfl⟩
    | fetchFail m2 => exact ⟨rfl, rfl, fun _ => rfl⟩
    | run steps =>
      rcases hp : processSteps { started_at := "", completed_at := none, activities_checked := steps.length, activities_synced := 0, activities_skipped := 0, activities_failed := 0, error := none } steps with ⟨r2, exn⟩
      rcases exn with _ | ex
      · simp [run_cycle, hp, SyncRun.complete]
      · rcases ex with m3 | m3 <;> simp [run_cycle, hp, SyncRun.complete]
  · obtain ⟨r2, hr2⟩ := processSteps_unexpected
      { activities_checked := (pre ++ StepOutcome.unexpected m :: rest).length }
      pre rest m hpre
    simp only [List.length_append, List.length_cons] at hr2
    simp [run_cycle, hr2, SyncRun.complete]

/-- Witness for C6: one normal result, then an exception escaping the
processor; the cycle swallows it and records it. -/
theorem cycle_finalized_once_witness :
    (run_cycle (CycleEnv.run [StepOutcome.result "synced", StepOutcome.unexpected "boom"])
        "t9").reraised = none ∧
    (run_cycle (CycleEnv.run [StepOutcome.result "synced", StepOutcome.unexpected "boom"])
        "t9").run.error = some "boom" :=
  (cycle_finalized_once (CycleEnv.run []) "t9" "boom" [StepOutcome.result "synced"]
    []).2.2.2 (by simp)

/-! ## C7 — mid-loop auth recovery -/

/-- C7: when the first `process_activity` attempt raises
`GarthException`, the engine performs exactly one `_ensure_auth` call and
at most one retry (exactly one when the re-auth succeeds); no further
attempts ever happen. If the retry fails with an auth error
(`GarthException` or `AuthenticationError`) — or the re-auth itself does
— the recovery yields `None`, and the cycle then aborts the remaining
activities by raising the fatal mid-cycle `AuthenticationError` (after
any prefix of normal results) rather than silently dropping them. -/
theorem mid_loop_auth_recovery (first : Attempt) (reauth : Option String)
    (second : Attempt) (gmsg now : String) (pre rest : List StepOutcome)
    (hg : first = Attempt.garth gmsg) :
    (process_with_auth_recovery first reauth second).reauthCalls = 1 ∧
    (process_with_auth_recovery first reauth second).processAttempts ≤ 2 ∧
    (reauth = none →
      (process_with_auth_recovery first reauth second).processAttempts = 2) ∧
    (∀ m2, second = Attempt.garth m2 →
      (process_with_auth_recovery first reauth second).value = none) ∧
    (∀ m2, second = Attempt.authErr m2 →
      (process_with_auth_recovery first reauth second).value = none) ∧
    (∀ m2, reauth = some m2 →
      (process_with_auth_recovery first reauth second).value = none) ∧
    ((∀ s ∈ pre, ∃ a, s = StepOutcome.result a) →
      (run_cycle (CycleEnv.run (pre ++ StepOutcome.authLost :: rest)) now).reraised =
        some midCycleAuthMsg) := by
  subst hg
  refine ⟨?_, ?_, ?_, ?_, ?_, ?_, fun hpre => ?_⟩
  · cases reauth <;> cases second <;> rfl
  · cases reauth <;> cases second <;> simp [process_with_auth_recovery]
  · intro h
    subst h
    cases second <;> rfl
  · intro m2 h
    subst h
    cases reauth <;> rfl
  · intro m2 h
    subst h
    cases reauth <;> rfl
  · intro m2 h
    subst h
    cases second <;> rfl
  · obtain ⟨r2, hr2⟩ := processSteps_authLost
      { activities_checked := (pre ++ StepOutcome.authLost :: rest).length } pre rest hpre
    simp only [List.length_append, List.length_cons] at hr2
    simp [run_cycle, hr2]

/-- Witness for C7: first attempt hits a Garmin auth error, re-auth
succeeds, the retry hits an auth error again — the recovery returns
`None` and the cycle aborts with the fatal message. -/
theorem mid_loop_auth_recovery_witness :
    (process_with_auth_recovery (Attempt.garth "401") none (Attempt.garth "401")).value =
      none ∧
    (process_with_auth_recovery (Attempt.garth "401") none
        (Attempt.garth "401")).reauthCalls = 1 ∧
    (process_with_auth_recovery (Attempt.garth "401") none
        (Attempt.garth "401")).processAttempts = 2 ∧
    (run_cycle (CycleEnv.run [StepOutcome.result "synced", StepOutcome.authLost,
        StepOutcome.result "skipped"]) "t3").reraised = some midCycleAuthMsg :=
  ⟨(mid_loop_auth_recovery (Attempt.garth "401") none (Attempt.garth "401") "401" "t3"
      [] [] rfl).2.2.2.1 "401" rfl,
    (mid_loop_auth_recovery (Attempt.garth "401") none (Attempt.garth "401") "401" "t3"
      [] [] rfl).1,
    (mid_loop_auth_recovery (Attempt.garth "401") none (Attempt.garth "401") "401" "t3"
      [] [] rfl).2.2.1 rfl,
    (mid_loop_auth_recovery (Attempt.garth "401") none (Attempt.garth "401") "401" "t3"
      [StepOutcome.result "synced"] [StepOutcome.result "skipped"] rfl).2.2.2.2.2.2
      (by simp)⟩
